import Mathlib

/-!
Shallow embedding of the finding-disposition engine found in
scripts/deployment/lambda/false_positive_analysis.py.

Modelling conventions:
* Python floats are modelled as exact rationals.  Every numeric literal in
  the source is an exact decimal, and no comparison settled below sits on a
  floating-point rounding boundary.
* Python dicts of tags are association lists; dict lookup with a default is
  List.lookup composed with Option.getD.  A finding whose Resources key is
  missing behaves exactly like one whose Resources list is [{}] (the code
  reads finding.get with default [{}]), so Finding.resources models that
  read directly: the missing-key case is represented by [emptyResource],
  where emptyResource has identifier "" and no tags.
* async functions in this module involve no concurrency or IO beyond stubbed
  collaborators that return constants; they are modelled as pure functions.
* wall-clock fields of the response (processing_time_ms, timestamp) are
  omitted from the response record; no claim mentions them.
-/

/-- Substring occurrence over lists of characters: the pattern occurs
contiguously in the list.  Models the Python `in` operator on strings. -/
def listContainsSub (pat : List Char) : List Char → Bool
  | [] => pat.isEmpty
  | c :: rest => pat.isPrefixOf (c :: rest) || listContainsSub pat rest

/-- Python str.lower, modelled per character; it agrees with Python on the
ASCII data this module handles. -/
def strLower (s : String) : String := ⟨s.data.map Char.toLower⟩

/-- Splitting on a one-character separator, agreeing with Python
str.split at that separator (the only separator the source uses). -/
def splitOnChar (sep : Char) : List Char → List (List Char)
  | [] => [[]]
  | c :: rest =>
    match splitOnChar sep rest with
    | [] => [[]]
    | h :: t => if c == sep then [] :: h :: t else (c :: h) :: t

/-- Python s.split(sep) for a one-character separator. -/
def strSplitOnChar (sep : Char) (s : String) : List String :=
  (splitOnChar sep s.data).map String.mk

/-- Python s.replace(c, empty) for a one-character pattern: every
occurrence of the character is removed. -/
def removeAllChar (star : Char) (s : String) : String :=
  ⟨s.data.filter (fun c => c != star)⟩

/-- Python substring test `pat in s`. -/
def strContainsSub (s pat : String) : Bool :=
  listContainsSub pat.data s.data

/-- Python tags.get(k, d) over an association list of string pairs. -/
def dictGet (tags : List (String × String)) (k d : String) : String :=
  (List.lookup k tags).getD d

/-- One entry of the Resources array of a Security Hub finding; only the
fields the engine reads (Id and Tags) are modelled. -/
structure Resource where
  id : String
  tags : List (String × String)
deriving DecidableEq

/-- The subset of a Security Hub finding that the engine reads.
severity_label models finding.get(Severity, empty).get(Label, MEDIUM), so a
finding with no Severity key is represented with severity_label MEDIUM. -/
structure Finding where
  id : String
  generator_id : String
  aws_account_id : String
  severity_label : String
  title : String
  description : String
  resources : List Resource
deriving DecidableEq

/-- Output of EnvironmentAnalyzer.analyze_environment_context. -/
structure EnvironmentContext where
  environment : String
  risk_level : String
  is_production : Bool
  requires_immediate_action : Bool
deriving DecidableEq

/-- Output of BusinessContextAnalyzer.analyze_business_context. -/
structure BusinessContext where
  is_critical_resource : Bool
  has_business_exception : Bool
  business_impact : String
  requires_business_review : Bool
deriving DecidableEq

/-- Output of MLClassifier.classify_finding. -/
structure FalsePositiveClassification where
  is_false_positive : Bool
  confidence : ℚ
  reasoning : String
deriving DecidableEq

/-- Output of PatternRecognitionEngine.analyze_historical_patterns. -/
structure PatternAnalysis where
  similar_findings_count : ℕ
  false_positive_rate : ℚ
  pattern_confidence : ℚ
  pattern_reasoning : String
deriving DecidableEq

/-- Output of TemporalAnalyzer.analyze_temporal_context. -/
structure TemporalAnalysis where
  is_temporary : Bool
  recurrence_pattern : String
  in_maintenance_window : Bool
  temporal_risk_level : String
deriving DecidableEq

/-- A historical finding as consumed by PatternRecognitionEngine: only its
WorkflowState key is read; none models a record without that key. -/
structure SimilarFinding where
  workflow_state : Option String
deriving DecidableEq

/-- The dict returned by PatternRecognitionEngine.analyze_outcomes.  The
total_findings and false_positive_count keys are absent (none) exactly when
the similar-findings list was empty, mirroring the two dict shapes the
Python function returns. -/
structure OutcomeAnalysis where
  false_positive_rate : ℚ
  total_findings : Option ℕ
  false_positive_count : Option ℕ
deriving DecidableEq

/-- The classification dict returned by combine_analysis_results. -/
structure CombinedClassification where
  is_false_positive : Bool
  confidence : ℚ
  reasoning : String
  recommended_action : String
deriving DecidableEq

/-- The analysis_options dict of a request: each key may be absent (none);
the code reads each with default True. -/
structure AnalysisOptions where
  include_ml_classification : Option Bool
  include_pattern_analysis : Option Bool
  include_business_context : Option Bool
  include_temporal_analysis : Option Bool
deriving DecidableEq

/-- The response dict built by analyze_finding, without the two wall-clock
metadata fields. -/
structure AnalysisResponse where
  analysis_id : String
  finding_id : String
  classification : CombinedClassification
  environment_analysis : EnvironmentContext
  ml_classification : Option FalsePositiveClassification
  pattern_analysis : Option PatternAnalysis
  business_context : Option BusinessContext
  temporal_analysis : Option TemporalAnalysis
  models_used : List String
deriving DecidableEq

/-! ## EnvironmentAnalyzer -/

/-- The environment_patterns dict of EnvironmentAnalyzer, in insertion
order (Python dicts iterate in insertion order). -/
def environment_patterns : List (String × List String) :=
  [("test", ["test", "dev", "staging", "qa", "sandbox", "demo"]),
   ("production", ["prod", "production", "live", "main"]),
   ("development", ["dev", "development", "feature", "branch"])]

/-- The inner `any(pattern in text for pattern in patterns)` test. -/
def matchesRow (pats : List String) (text : String) : Bool :=
  pats.any (fun p => strContainsSub text p)

/-- The keyword-set loop of detect_environment: first row whose pattern
list matches wins, default unknown. -/
def detectFrom : List (String × List String) → String → String
  | [], _ => "unknown"
  | (env, pats) :: rest, text =>
    if matchesRow pats text then env else detectFrom rest text

/-- The text_to_analyze expression of detect_environment: resource ARN and
all tag values joined by spaces, lower-cased. -/
def text_to_analyze (resource_arn : String) (tags : List (String × String)) : String :=
  strLower (resource_arn ++ " " ++ String.intercalate " " (tags.map Prod.snd))

/-- EnvironmentAnalyzer.detect_environment. -/
def detect_environment (resource_arn : String) (tags : List (String × String)) : String :=
  detectFrom environment_patterns (text_to_analyze resource_arn tags)

/-- EnvironmentAnalyzer.assess_environment_risk: the fixed risk_mapping
dict lookup with default MEDIUM, written as the equivalent if chain. -/
def assess_environment_risk (environment : String) : String :=
  if environment = "production" then "HIGH"
  else if environment = "staging" then "MEDIUM"
  else if environment = "test" then "LOW"
  else if environment = "development" then "LOW"
  else "MEDIUM"

/-- EnvironmentAnalyzer.analyze_environment_context. -/
def analyze_environment_context (f : Finding) : EnvironmentContext :=
  match f.resources with
  | [] =>
    { environment := "unknown", risk_level := "MEDIUM",
      is_production := false, requires_immediate_action := false }
  | r :: _ =>
    let environment := detect_environment r.id r.tags
    { environment := environment
      risk_level := assess_environment_risk environment
      is_production := environment == "production"
      requires_immediate_action := environment == "production" }

/-! ## BusinessContextAnalyzer -/

/-- BusinessContextAnalyzer.load_critical_resources. -/
def critical_resources : List String :=
  ["arn:aws:iam::*:root", "arn:aws:s3:::production-data-*", "arn:aws:rds:*:*:db:production-*"]

/-- BusinessContextAnalyzer.load_business_exceptions. -/
def business_exceptions : List String :=
  ["IAM.1:development:test-account", "S3.1:staging:demo-bucket", "EC2.1:dev:test-instance"]

/-- BusinessContextAnalyzer.matches_pattern: the wildcard is stripped and
the remainder tested as a substring of the resource identifier. -/
def matches_pattern (resource_id pat : String) : Bool :=
  strContainsSub resource_id (removeAllChar '*' pat)

/-- BusinessContextAnalyzer.is_critical_resource. -/
def is_critical_resource (resource_id : String) : Bool :=
  critical_resources.any (fun pat => matches_pattern resource_id pat)

/-- BusinessContextAnalyzer.generate_finding_key. -/
def generate_finding_key (f : Finding) : String :=
  let parts := strSplitOnChar '/' f.generator_id
  let service_control := if parts.length ≥ 2 then parts.getLastD f.generator_id else f.generator_id
  let env := match f.resources with
    | [] => "unknown"
    | r :: _ => dictGet r.tags "Environment" "unknown"
  service_control ++ ":" ++ env ++ ":" ++ f.aws_account_id

/-- BusinessContextAnalyzer.has_business_exception. -/
def has_business_exception (f : Finding) : Bool :=
  business_exceptions.contains (generate_finding_key f)

/-- BusinessContextAnalyzer.assess_business_impact. -/
def assess_business_impact (f : Finding) (is_critical has_exception : Bool) : String :=
  if is_critical then "HIGH"
  else if has_exception then "LOW"
  else if f.severity_label = "HIGH" ∨ f.severity_label = "CRITICAL" then "MEDIUM"
  else "LOW"

/-- BusinessContextAnalyzer.analyze_business_context. -/
def analyze_business_context (f : Finding) : BusinessContext :=
  match f.resources with
  | [] =>
    { is_critical_resource := false, has_business_exception := false,
      business_impact := "UNKNOWN", requires_business_review := false }
  | r :: _ =>
    let is_critical := is_critical_resource r.id
    let has_exception := has_business_exception f
    { is_critical_resource := is_critical
      has_business_exception := has_exception
      business_impact := assess_business_impact f is_critical has_exception
      requires_business_review := is_critical || has_exception }

/-! ## MLClassifier and FalsePositiveFeatureExtractor -/

/-- Models Python str(finding) as used by extract_severity_mismatch_score:
all modelled fields of the finding joined by spaces.  Keyword containment
(the only use) is preserved: a keyword occurring in any field occurs in
this string, and the space separators prevent cross-field matches just as
the quote and comma separators of the Python dict repr do. -/
def strFinding (f : Finding) : String :=
  f.id ++ " " ++ f.generator_id ++ " " ++ f.aws_account_id ++ " " ++
  f.severity_label ++ " " ++ f.title ++ " " ++ f.description ++ " " ++
  String.intercalate " "
    (f.resources.map (fun r =>
      r.id ++ " " ++ String.intercalate " " (r.tags.map (fun kv => kv.1 ++ " " ++ kv.2))))

/-- FalsePositiveFeatureExtractor.extract_environment_score. -/
def extract_environment_score (f : Finding) : ℚ :=
  let ctx := analyze_environment_context f
  if ctx.environment = "test" ∨ ctx.environment = "development" ∨ ctx.environment = "staging" then 9/10
  else if ctx.environment = "production" then 1/10
  else 1/2

/-- FalsePositiveFeatureExtractor.extract_historical_pattern_score: the
historical lookup is stubbed to the constant default in the source. -/
def extract_historical_pattern_score (_f : Finding) : ℚ := 1/2

/-- FalsePositiveFeatureExtractor.extract_business_exception_score. -/
def extract_business_exception_score (f : Finding) : ℚ :=
  let ctx := analyze_business_context f
  if ctx.has_business_exception then 8/10
  else if ctx.is_critical_resource then 2/10
  else 1/2

/-- FalsePositiveFeatureExtractor.extract_temporal_pattern_score: stubbed
to the constant default in the source. -/
def extract_temporal_pattern_score (_f : Finding) : ℚ := 1/2

/-- FalsePositiveFeatureExtractor.extract_severity_mismatch_score. -/
def extract_severity_mismatch_score (f : Finding) : ℚ :=
  if f.severity_label == "CRITICAL" && strContainsSub (strLower (strFinding f)) "test" then 8/10
  else if f.severity_label == "LOW" && strContainsSub (strLower (strFinding f)) "production" then 3/10
  else 1/2

/-- FalsePositiveFeatureExtractor.extract_features: the five features in
source order. -/
def extract_features (f : Finding) : List ℚ :=
  [extract_environment_score f,
   extract_historical_pattern_score f,
   extract_business_exception_score f,
   extract_temporal_pattern_score f,
   extract_severity_mismatch_score f]

/-- The weights list of MLClassifier.simple_classification. -/
def classifier_weights : List ℚ := [3/10, 25/100, 2/10, 15/100, 1/10]

/-- MLClassifier.simple_classification: weighted sum over zip with the
weights, clamped to the unit interval. -/
def simple_classification (features : List ℚ) : ℚ :=
  let weighted_sum := ((features.zip classifier_weights).map (fun fw => fw.1 * fw.2)).sum
  min (max weighted_sum 0) 1

/-- MLClassifier.generate_reasoning.  The Python code indexes the features
list at 0..3; the extractor always supplies five entries, so the getD
default is never consulted on reachable inputs. -/
def generate_reasoning (_f : Finding) (features : List ℚ) (_probability : ℚ) : String :=
  let parts : List String :=
    (if features.getD 0 0 > 8/10 then ["Finding is in non-production environment"] else []) ++
    (if features.getD 1 0 > 7/10 then ["Similar findings were previously false positives"] else []) ++
    (if features.getD 2 0 > 6/10 then ["Finding matches known business exception pattern"] else []) ++
    (if features.getD 3 0 > 7/10 then ["Finding appears to be temporary"] else [])
  if parts = [] then "No specific indicators" else String.intercalate "; " parts

/-- MLClassifier.classify_finding.  The except branch returning None is
unreachable: every step of the embedded pipeline is total. -/
def classify_finding (f : Finding) : Option FalsePositiveClassification :=
  let features := extract_features f
  let probability := simple_classification features
  some
    { is_false_positive := decide (probability > 7/10)
      confidence := probability
      reasoning := generate_reasoning f features probability }

/-! ## PatternRecognitionEngine -/

/-- PatternRecognitionEngine.find_similar_findings: stubbed to the empty
list in the source. -/
def find_similar_findings (_f : Finding) : List SimilarFinding := []

/-- PatternRecognitionEngine.analyze_outcomes. -/
def analyze_outcomes (similar_findings : List SimilarFinding) : OutcomeAnalysis :=
  match similar_findings with
  | [] => { false_positive_rate := 1/2, total_findings := none, false_positive_count := none }
  | _ =>
    let false_positive_count := similar_findings.countP (fun s => s.workflow_state == some "SUPPRESSED")
    let total_count := similar_findings.length
    { false_positive_rate := if total_count > 0 then (false_positive_count : ℚ) / total_count else 1/2
      total_findings := some total_count
      false_positive_count := some false_positive_count }

/-- PatternRecognitionEngine.calculate_pattern_probability. -/
def calculate_pattern_probability (o : OutcomeAnalysis) : ℚ :=
  let false_positive_rate := o.false_positive_rate
  let total_findings := o.total_findings.getD 0
  if total_findings > 10 then false_positive_rate
  else if total_findings > 5 then false_positive_rate * (8/10)
  else 1/2

/-- PatternRecognitionEngine.generate_pattern_reasoning.  Python formats
the percentage with percent-.0f (round half to even); the model rounds
half up, a divergence only at exact half percentages, in a string no claim
depends on. -/
def generate_pattern_reasoning (o : OutcomeAnalysis) : String :=
  let total_findings := o.total_findings.getD 0
  if total_findings = 0 then "No similar historical findings found"
  else toString (round (o.false_positive_rate * 100) : ℤ) ++ "% of similar findings were false positives"

/-- PatternRecognitionEngine.analyze_historical_patterns. -/
def analyze_historical_patterns (f : Finding) : PatternAnalysis :=
  let similar := find_similar_findings f
  let outcome := analyze_outcomes similar
  { similar_findings_count := similar.length
    false_positive_rate := outcome.false_positive_rate
    pattern_confidence := calculate_pattern_probability outcome
    pattern_reasoning := generate_pattern_reasoning outcome }

/-! ## TemporalAnalyzer -/

/-- TemporalAnalyzer.is_temporary_finding: stubbed to False. -/
def is_temporary_finding (_f : Finding) : Bool := false

/-- TemporalAnalyzer.analyze_recurrence_pattern: stubbed to NONE. -/
def analyze_recurrence_pattern (_f : Finding) : String := "NONE"

/-- TemporalAnalyzer.is_in_maintenance_window: stubbed to False. -/
def is_in_maintenance_window (_f : Finding) : Bool := false

/-- TemporalAnalyzer.calculate_temporal_risk. -/
def calculate_temporal_risk (is_temporary : Bool) (recurrence_pattern : String) (in_maintenance_window : Bool) : String :=
  if is_temporary then "LOW"
  else if in_maintenance_window then "MEDIUM"
  else if recurrence_pattern ≠ "NONE" then "MEDIUM"
  else "HIGH"

/-- TemporalAnalyzer.analyze_temporal_context. -/
def analyze_temporal_context (f : Finding) : TemporalAnalysis :=
  let is_temporary := is_temporary_finding f
  let recurrence := analyze_recurrence_pattern f
  let in_window := is_in_maintenance_window f
  { is_temporary := is_temporary
    recurrence_pattern := recurrence
    in_maintenance_window := in_window
    temporal_risk_level := calculate_temporal_risk is_temporary recurrence in_window }

/-! ## FalsePositiveAnalysisLambda -/

/-- FalsePositiveAnalysisLambda.calculate_environment_score. -/
def calculate_environment_score (e : EnvironmentContext) : ℚ :=
  if e.environment = "test" ∨ e.environment = "development" ∨ e.environment = "staging" then 9/10
  else if e.environment = "production" then 1/10
  else 1/2

/-- FalsePositiveAnalysisLambda.calculate_business_score. -/
def calculate_business_score (b : BusinessContext) : ℚ :=
  if b.has_business_exception then 8/10
  else if b.is_critical_resource then 2/10
  else 1/2

/-- FalsePositiveAnalysisLambda.calculate_temporal_score. -/
def calculate_temporal_score (t : TemporalAnalysis) : ℚ :=
  if t.is_temporary then 8/10
  else if t.in_maintenance_window then 7/10
  else 1/2

/-- Helper for one optional append to the confidence_scores list of
combine_analysis_results: present analyses contribute one score. -/
def optScore {α : Type} (o : Option α) (score : α → ℚ) : List ℚ :=
  match o with
  | some x => [score x]
  | none => []

/-- The confidence_scores list assembled by combine_analysis_results, in
source append order: environment, ml, pattern, business, temporal; absent
analyses contribute nothing. -/
def confidenceScores (e : Option EnvironmentContext) (m : Option FalsePositiveClassification)
    (p : Option PatternAnalysis) (b : Option BusinessContext) (t : Option TemporalAnalysis) : List ℚ :=
  optScore e calculate_environment_score ++
  optScore m (fun c => c.confidence) ++
  optScore p (fun pa => pa.pattern_confidence) ++
  optScore b calculate_business_score ++
  optScore t calculate_temporal_score

/-- The reasoning_parts list assembled by combine_analysis_results, in
source append order with the source thresholds. -/
def reasoningParts (e : Option EnvironmentContext) (m : Option FalsePositiveClassification)
    (p : Option PatternAnalysis) (b : Option BusinessContext) (t : Option TemporalAnalysis) : List String :=
  (match e with
   | some env => if calculate_environment_score env > 8/10 then ["Finding is in non-production environment"] else []
   | none => []) ++
  (match m with
   | some c => if c.confidence > 7/10 then [c.reasoning] else []
   | none => []) ++
  (match p with
   | some pa => if pa.pattern_confidence > 8/10 then [pa.pattern_reasoning] else []
   | none => []) ++
  (match b with
   | some bc => if bc.has_business_exception then ["Finding matches known business exception"] else []
   | none => []) ++
  (match t with
   | some ta => if ta.is_temporary then ["Finding appears to be temporary"] else []
   | none => [])

/-- FalsePositiveAnalysisLambda.combine_analysis_results. -/
def combine_analysis_results (e : Option EnvironmentContext) (m : Option FalsePositiveClassification)
    (p : Option PatternAnalysis) (b : Option BusinessContext) (t : Option TemporalAnalysis) : CombinedClassification :=
  let scores := confidenceScores e m p b t
  let parts := reasoningParts e m p b t
  let final_confidence := if scores = [] then 1/2 else scores.sum / (scores.length : ℚ)
  { is_false_positive := decide (final_confidence > 7/10)
    confidence := final_confidence
    reasoning := if parts = [] then "No specific indicators" else String.intercalate "; " parts
    recommended_action :=
      if final_confidence > 9/10 then "SUPPRESS"
      else if final_confidence > 7/10 then "DOWNGRADE"
      else "REVIEW" }

/-- Reading of one analysis option: options.get(key, True). -/
def getOpt (o : Option Bool) : Bool := o.getD true

/-- The ml_classification value selected by analyze_finding. -/
def selected_ml (f : Finding) (opts : AnalysisOptions) : Option FalsePositiveClassification :=
  if getOpt opts.include_ml_classification then classify_finding f else none

/-- The pattern_analysis value selected by analyze_finding. -/
def selected_pattern (f : Finding) (opts : AnalysisOptions) : Option PatternAnalysis :=
  if getOpt opts.include_pattern_analysis then some (analyze_historical_patterns f) else none

/-- The business_context value selected by analyze_finding. -/
def selected_business (f : Finding) (opts : AnalysisOptions) : Option BusinessContext :=
  if getOpt opts.include_business_context then some (analyze_business_context f) else none

/-- The temporal_analysis value selected by analyze_finding. -/
def selected_temporal (f : Finding) (opts : AnalysisOptions) : Option TemporalAnalysis :=
  if getOpt opts.include_temporal_analysis then some (analyze_temporal_context f) else none

/-- FalsePositiveAnalysisLambda.get_models_used. -/
def get_models_used (opts : AnalysisOptions) : List String :=
  "environment_analyzer" ::
    ((if getOpt opts.include_ml_classification then ["ml_classifier"] else []) ++
     (if getOpt opts.include_pattern_analysis then ["pattern_recognizer"] else []) ++
     (if getOpt opts.include_business_context then ["business_analyzer"] else []) ++
     (if getOpt opts.include_temporal_analysis then ["temporal_analyzer"] else []))

/-- The confidence_scores list that analyze_finding feeds the combiner for
a given finding and options: the environment context is always present. -/
def analysisScores (f : Finding) (opts : AnalysisOptions) : List ℚ :=
  confidenceScores (some (analyze_environment_context f)) (selected_ml f opts)
    (selected_pattern f opts) (selected_business f opts) (selected_temporal f opts)

/-- FalsePositiveAnalysisLambda.analyze_finding. -/
def analyze_finding (f : Finding) (opts : AnalysisOptions) : AnalysisResponse :=
  let env := analyze_environment_context f
  let ml := selected_ml f opts
  let pat := selected_pattern f opts
  let bus := selected_business f opts
  let temp := selected_temporal f opts
  { analysis_id := "fp-analysis-" ++ (strSplitOnChar '/' f.id).getLastD ""
    finding_id := f.id
    classification := combine_analysis_results (some env) ml pat bus temp
    environment_analysis := env
    ml_classification := ml
    pattern_analysis := pat
    business_context := bus
    temporal_analysis := temp
    models_used := get_models_used opts }

/-! ## Statement helpers -/

/-- The recommended-action policy of combine_analysis_results as a
function of the final confidence, used to state threshold and
monotonicity properties. -/
def recommendedActionOf (confidence : ℚ) : String :=
  if confidence > 9/10 then "SUPPRESS"
  else if confidence > 7/10 then "DOWNGRADE"
  else "REVIEW"

/-- Suppression aggressiveness order on recommended actions: REVIEW is
least aggressive, SUPPRESS most. -/
def actionRank (a : String) : ℕ :=
  if a = "SUPPRESS" then 2
  else if a = "DOWNGRADE" then 1
  else 0

/-- The options dict with all four analysis options explicitly False. -/
def allOptionsOff : AnalysisOptions :=
  { include_ml_classification := some false
    include_pattern_analysis := some false
    include_business_context := some false
    include_temporal_analysis := some false }

/-- The options dict with no keys present: every option defaults to True. -/
def defaultOptions : AnalysisOptions :=
  { include_ml_classification := none
    include_pattern_analysis := none
    include_business_context := none
    include_temporal_analysis := none }

/-- An unknown-tier environment context, used as a concrete input. -/
def unknownCtx : EnvironmentContext :=
  { environment := "unknown", risk_level := "MEDIUM",
    is_production := false, requires_immediate_action := false }

/-- A finding with no resources at all, used as a concrete input. -/
def emptyFinding : Finding :=
  { id := "", generator_id := "", aws_account_id := "", severity_label := "MEDIUM",
    title := "", description := "", resources := [] }

/-- A development-tagged root-account finding, mirroring the test data of
the repository test suite (create_test_finding with environment
development), used as a concrete input. -/
def devFinding8 : Finding :=
  { id := "arn:aws:securityhub:us-west-2:123456789012:subscription/aws-foundational-security-best-practices/v/1.0.0/IAM.1/finding/abc"
    generator_id := "aws-foundational-security-best-practices/v/1.0.0/IAM.1"
    aws_account_id := "123456789012"
    severity_label := "MEDIUM"
    title := "Test finding for false positive analysis"
    description := "This is a test finding for false positive analysis validation."
    resources := [{ id := "arn:aws:iam::123456789012:root"
                    tags := [("Environment", "development")] }] }

/-- A production-tagged HIGH-severity root-account finding, mirroring the
input of the repository test test_production_environment_true_positive
(tags Environment production and Project test-project). -/
def prodFinding5 : Finding :=
  { id := "arn:aws:securityhub:us-west-2:123456789012:subscription/aws-foundational-security-best-practices/v/1.0.0/IAM.1/finding/p1"
    generator_id := "aws-foundational-security-best-practices/v/1.0.0/IAM.1"
    aws_account_id := "123456789012"
    severity_label := "HIGH"
    title := "Test finding for false positive analysis"
    description := "This is a test finding for false positive analysis validation."
    resources := [{ id := "arn:aws:iam::123456789012:root"
                    tags := [("Environment", "production"), ("Project", "test-project")] }] }

/-- A MEDIUM-severity finding on a test bucket with no tags, used as a
concrete input. -/
def testBucketFinding : Finding :=
  { id := "arn:aws:securityhub:us-west-2:123456789012:subscription/x/finding/t1"
    generator_id := "x"
    aws_account_id := "123456789012"
    severity_label := "MEDIUM"
    title := "Bucket finding"
    description := "Bucket description."
    resources := [{ id := "arn:aws:s3:::test-bucket", tags := [] }] }

/-! ## Shared lemmas -/

/-- The sum of a list of rationals bounded above by one is at most the
length of the list. -/
lemma list_sum_le_length (l : List ℚ) (h : ∀ x ∈ l, x ≤ 1) : l.sum ≤ (l.length : ℚ) := by
  induction l with
  | nil => simp
  | cons a t ih =>
    simp only [List.sum_cons, List.length_cons]
    have ha := h a (by simp)
    have ht := ih (fun x hx => h x (by simp [hx]))
    push_cast
    linarith

/-- The mean of a nonempty list of unit-interval rationals lies in the
unit interval. -/
lemma mean_mem_unit (l : List ℚ) (hne : l ≠ [])
    (h : ∀ x ∈ l, 0 ≤ x ∧ x ≤ 1) :
    0 ≤ l.sum / (l.length : ℚ) ∧ l.sum / (l.length : ℚ) ≤ 1 := by
  have hlen : 0 < (l.length : ℚ) := by
    have := List.length_pos.mpr hne
    exact_mod_cast this
  constructor
  · exact div_nonneg (List.sum_nonneg (fun x hx => (h x hx).1)) (le_of_lt hlen)
  · rw [div_le_one hlen]
    exact list_sum_le_length l (fun x hx => (h x hx).2)

/-- The mean of a list whose head is at most one tenth and whose tail
entries are each at most one half is strictly below one half. -/
lemma mean_lt_half (x : ℚ) (rest : List ℚ) (hx : x ≤ 1/10)
    (h : ∀ y ∈ rest, y ≤ 1/2) :
    (x :: rest).sum / (((x :: rest).length : ℕ) : ℚ) < 1/2 := by
  have hsum : rest.sum ≤ (rest.length : ℚ) * (1/2) := by
    induction rest with
    | nil => simp
    | cons a t ih =>
      simp only [List.sum_cons, List.length_cons]
      have ha := h a (by simp)
      have ht := ih (fun y hy => h y (by simp [hy]))
      push_cast
      linarith
  have hlen : (0 : ℚ) < ((x :: rest).length : ℕ) := by
    simp only [List.length_cons]
    push_cast
    positivity
  rw [div_lt_iff₀ hlen]
  simp only [List.sum_cons, List.length_cons]
  push_cast
  linarith

/-- Case analysis of calculate_environment_score. -/
lemma env_score_cases (e : EnvironmentContext) :
    calculate_environment_score e = 9/10 ∨ calculate_environment_score e = 1/10 ∨
      calculate_environment_score e = 1/2 := by
  unfold calculate_environment_score
  split_ifs <;> simp

/-- Case analysis of calculate_business_score. -/
lemma bus_score_cases (b : BusinessContext) :
    calculate_business_score b = 8/10 ∨ calculate_business_score b = 2/10 ∨
      calculate_business_score b = 1/2 := by
  unfold calculate_business_score
  split_ifs <;> simp

/-- Case analysis of calculate_temporal_score. -/
lemma temp_score_cases (t : TemporalAnalysis) :
    calculate_temporal_score t = 8/10 ∨ calculate_temporal_score t = 7/10 ∨
      calculate_temporal_score t = 1/2 := by
  unfold calculate_temporal_score
  split_ifs <;> simp

/-- The clamped classifier output lies in the unit interval for every
feature list. -/
lemma simple_classification_mem_unit (features : List ℚ) :
    0 ≤ simple_classification features ∧ simple_classification features ≤ 1 := by
  unfold simple_classification
  constructor
  · exact le_min (le_max_right _ _) zero_le_one
  · exact min_le_right _ _

/-- The pattern confidence computed by analyze_historical_patterns is the
neutral default: the similar-findings lookup is stubbed to the empty list. -/
lemma pattern_confidence_eq_half (f : Finding) :
    (analyze_historical_patterns f).pattern_confidence = 1/2 := rfl

/-- The temporal score of the stubbed temporal analysis is neutral. -/
lemma temporal_score_eq_half (f : Finding) :
    calculate_temporal_score (analyze_temporal_context f) = 1/2 := rfl

/-! ## Claim C1 -/

/-- C1: the combiner returns the arithmetic mean of the scores of exactly
the analyses that are present (one score per present analysis, no fixed
divisor); is_false_positive holds iff that confidence is strictly above
0.7; the recommended action follows the fixed thresholds (above 0.9
SUPPRESS, above 0.7 DOWNGRADE, otherwise REVIEW), is monotone in
confidence under the suppression-aggressiveness order, and in particular
confidence 0.95 yields SUPPRESS, 0.8 yields DOWNGRADE, 0.5 yields REVIEW. -/
theorem c1_combiner_mean_threshold_action (e : Option EnvironmentContext)
    (m : Option FalsePositiveClassification) (p : Option PatternAnalysis)
    (b : Option BusinessContext) (t : Option TemporalAnalysis) :
    (confidenceScores e m p b t ≠ [] →
      (combine_analysis_results e m p b t).confidence =
        (confidenceScores e m p b t).sum / ((confidenceScores e m p b t).length : ℚ))
    ∧ (confidenceScores e m p b t).length =
        (if e.isSome then 1 else 0) + (if m.isSome then 1 else 0) +
        (if p.isSome then 1 else 0) + (if b.isSome then 1 else 0) +
        (if t.isSome then 1 else 0)
    ∧ ((combine_analysis_results e m p b t).is_false_positive = true ↔
        (combine_analysis_results e m p b t).confidence > 7/10)
    ∧ (combine_analysis_results e m p b t).recommended_action =
        recommendedActionOf (combine_analysis_results e m p b t).confidence
    ∧ (∀ c₁ c₂ : ℚ, c₁ ≤ c₂ →
        actionRank (recommendedActionOf c₁) ≤ actionRank (recommendedActionOf c₂))
    ∧ recommendedActionOf (95/100) = "SUPPRESS"
    ∧ recommendedActionOf (8/10) = "DOWNGRADE"
    ∧ recommendedActionOf (1/2) = "REVIEW" := by
  refine ⟨?_, ?_, ?_, ?_, ?_, ?_, ?_, ?_⟩
  · intro h
    simp [combine_analysis_results, h]
  · rcases e with _ | e <;> rcases m with _ | m <;> rcases p with _ | p <;>
      rcases b with _ | b <;> rcases t with _ | t <;>
      simp [confidenceScores, optScore]
  · simp [combine_analysis_results]
  · rfl
  · intro c₁ c₂ hle
    unfold recommendedActionOf
    split_ifs with h1 h2 h3 h4 h5 <;> simp [actionRank] <;> linarith
  · norm_num [recommendedActionOf]
  · norm_num [recommendedActionOf]
  · norm_num [recommendedActionOf]

/-- Witness for C1 at concrete inputs: with only an unknown-environment
analysis present the mean clause applies, and the monotonicity clause
applies at confidences 0.5 and 0.8. -/
theorem c1_witness :
    (combine_analysis_results (some unknownCtx) none none none none).confidence =
      (confidenceScores (some unknownCtx) none none none none).sum /
      ((confidenceScores (some unknownCtx) none none none none).length : ℚ)
    ∧ actionRank (recommendedActionOf (1/2)) ≤ actionRank (recommendedActionOf (8/10)) := by
  constructor
  · exact (c1_combiner_mean_threshold_action _ _ _ _ _).1
      (by simp [confidenceScores, optScore])
  · exact (c1_combiner_mean_threshold_action (some unknownCtx)
      none none none none).2.2.2.2.1 (1/2) (8/10) (by norm_num)

/-! ## Claim C2 -/

/-- Every entry of the score list fed to the combiner by analyze_finding
is one of the four analyzer scores or the neutral default. -/
lemma analysisScores_mem_cases (f : Finding) (opts : AnalysisOptions) (s : ℚ)
    (hs : s ∈ analysisScores f opts) :
    s = calculate_environment_score (analyze_environment_context f)
    ∨ s = simple_classification (extract_features f)
    ∨ s = calculate_business_score (analyze_business_context f)
    ∨ s = 1/2 := by
  unfold analysisScores confidenceScores optScore selected_ml selected_pattern
    selected_business selected_temporal classify_finding at hs
  split_ifs at hs <;>
    simp only [List.mem_append, List.mem_singleton, List.not_mem_nil, or_false,
      false_or, pattern_confidence_eq_half, temporal_score_eq_half] at hs <;>
    tauto

/-- The score list fed to the combiner is never empty: the environment
score is always present. -/
lemma analysisScores_ne_nil (f : Finding) (opts : AnalysisOptions) :
    analysisScores f opts ≠ [] := by
  unfold analysisScores confidenceScores optScore
  simp

/-- The classification of a response is the combiner applied to the
always-present environment context and the selected optional analyses. -/
lemma analyze_finding_classification (f : Finding) (opts : AnalysisOptions) :
    (analyze_finding f opts).classification =
      combine_analysis_results (some (analyze_environment_context f))
        (selected_ml f opts) (selected_pattern f opts)
        (selected_business f opts) (selected_temporal f opts) := rfl

/-- The combiner divides by the number of collected scores when at least
one is present. -/
lemma combine_confidence_eq (e : Option EnvironmentContext)
    (m : Option FalsePositiveClassification) (p : Option PatternAnalysis)
    (b : Option BusinessContext) (t : Option TemporalAnalysis)
    (h : confidenceScores e m p b t ≠ []) :
    (combine_analysis_results e m p b t).confidence =
      (confidenceScores e m p b t).sum / ((confidenceScores e m p b t).length : ℚ) := by
  simp [combine_analysis_results, h]

/-- Every entry of the combiner score list lies in the unit interval. -/
lemma analysisScores_bounds (f : Finding) (opts : AnalysisOptions) :
    ∀ s ∈ analysisScores f opts, 0 ≤ s ∧ s ≤ 1 := by
  intro s hs
  rcases analysisScores_mem_cases f opts s hs with h | h | h | h
  · rcases env_score_cases (analyze_environment_context f) with h9 | h1 | h5 <;>
      rw [h] <;> simp_all <;> norm_num
  · rw [h]; exact simple_classification_mem_unit (extract_features f)
  · rcases bus_score_cases (analyze_business_context f) with h8 | h2 | h5 <;>
      rw [h] <;> simp_all <;> norm_num
  · rw [h]; norm_num

/-- C2: for every finding and every combination of analysis options, every
per-analyzer sub-score fed to the combiner and the final confidence of the
returned classification lie in the closed unit interval. -/
theorem c2_scores_and_confidence_unit (f : Finding) (opts : AnalysisOptions) :
    (∀ s ∈ analysisScores f opts, 0 ≤ s ∧ s ≤ 1)
    ∧ 0 ≤ (analyze_finding f opts).classification.confidence
    ∧ (analyze_finding f opts).classification.confidence ≤ 1 := by
  refine ⟨analysisScores_bounds f opts, ?_, ?_⟩ <;>
    rw [analyze_finding_classification,
      combine_confidence_eq _ _ _ _ _ (analysisScores_ne_nil f opts)]
  · exact (mean_mem_unit _ (analysisScores_ne_nil f opts) (analysisScores_bounds f opts)).1
  · exact (mean_mem_unit _ (analysisScores_ne_nil f opts) (analysisScores_bounds f opts)).2

/-- Witness for C2: at the empty finding with default options the neutral
score is in the fed list, and the theorem bounds it and the confidence. -/
theorem c2_witness :
    ((1:ℚ)/2 ∈ analysisScores emptyFinding defaultOptions ∧ 0 ≤ (1:ℚ)/2 ∧ (1:ℚ)/2 ≤ 1)
    ∧ 0 ≤ (analyze_finding emptyFinding defaultOptions).classification.confidence := by
  have hmem : (1:ℚ)/2 ∈ analysisScores emptyFinding defaultOptions := by
    unfold analysisScores confidenceScores optScore selected_ml selected_pattern
      selected_business selected_temporal
    simp [getOpt, defaultOptions, pattern_confidence_eq_half, temporal_score_eq_half]
  refine ⟨⟨hmem, (c2_scores_and_confidence_unit emptyFinding defaultOptions).1 _ hmem⟩,
    (c2_scores_and_confidence_unit emptyFinding defaultOptions).2.1⟩

/-! ## Claim C6 -/

/-- C6: the default classifier computes the fixed-weight linear
combination of the five features (weights 0.30, 0.25, 0.20, 0.15, 0.10 in
the order environment, historical pattern, business exception, temporal,
severity mismatch) clamped to the unit interval, and its result marks a
false positive exactly when that probability is strictly above 0.7. -/
theorem c6_classifier_linear_threshold :
    (∀ a b c d e : ℚ,
      simple_classification [a, b, c, d, e] =
        min (max ((3/10) * a + (25/100) * b + (2/10) * c + (15/100) * d + (1/10) * e) 0) 1)
    ∧ (∀ f : Finding, extract_features f =
        [extract_environment_score f, extract_historical_pattern_score f,
         extract_business_exception_score f, extract_temporal_pattern_score f,
         extract_severity_mismatch_score f])
    ∧ (∀ f : Finding, ∃ r, classify_finding f = some r ∧
        r.confidence = simple_classification (extract_features f) ∧
        (r.is_false_positive = true ↔ r.confidence > 7/10)) := by
  refine ⟨?_, fun f => rfl, ?_⟩
  · intro a b c d e
    simp only [simple_classification, classifier_weights, List.zip, List.zipWith,
      List.map, List.sum_cons, List.sum_nil]
    ring_nf
  · intro f
    refine ⟨_, rfl, rfl, ?_⟩
    simp [classify_finding]

/-! ## Claim C7 -/

/-- C7: the pattern engine computes the false-positive rate as the count
of SUPPRESSED similar findings over the total, defaulting to the neutral
0.5 on an empty history, and discounts the pattern confidence by sample
size: the full rate above ten samples, 0.8 times the rate for six to ten
samples, and exactly 0.5 otherwise regardless of the observed rate. -/
theorem c7_pattern_rate_and_discount (sim : List SimilarFinding) :
    (analyze_outcomes sim).false_positive_rate =
      (if sim = [] then 1/2
       else ((sim.countP (fun s => s.workflow_state == some "SUPPRESSED") : ℚ) / (sim.length : ℚ)))
    ∧ calculate_pattern_probability (analyze_outcomes sim) =
      (if sim.length > 10 then (analyze_outcomes sim).false_positive_rate
       else if sim.length > 5 then (analyze_outcomes sim).false_positive_rate * (8/10)
       else 1/2) := by
  rcases sim with _ | ⟨a, rest⟩
  · simp [analyze_outcomes, calculate_pattern_probability]
  · constructor
    · simp [analyze_outcomes]
    · simp [analyze_outcomes, calculate_pattern_probability]

/-! ## Claim C8 -/

/-- The environment detector only ever reports one of its three dict keys
or the default. -/
lemma detect_environment_cases (arn : String) (tags : List (String × String)) :
    detect_environment arn tags = "test" ∨ detect_environment arn tags = "production" ∨
    detect_environment arn tags = "development" ∨ detect_environment arn tags = "unknown" := by
  simp only [detect_environment, environment_patterns, detectFrom]
  split_ifs <;> simp

/-- C8: the environment analyzer lower-cases the first resource identifier
concatenated with its tag values, tests the three keyword sets in order
(test-like, then production-like, then development-like) with the first
match winning and unknown as default, never fails on a finding without
resources, and maps tiers to risk by the fixed table. -/
theorem c8_environment_analyzer_algorithm (f : Finding) (arn : String)
    (tags : List (String × String)) :
    text_to_analyze arn tags =
      strLower (arn ++ " " ++ String.intercalate " " (tags.map Prod.snd))
    ∧ (matchesRow ["test", "dev", "staging", "qa", "sandbox", "demo"]
        (text_to_analyze arn tags) = true → detect_environment arn tags = "test")
    ∧ (matchesRow ["test", "dev", "staging", "qa", "sandbox", "demo"]
        (text_to_analyze arn tags) = false →
       matchesRow ["prod", "production", "live", "main"]
        (text_to_analyze arn tags) = true → detect_environment arn tags = "production")
    ∧ (matchesRow ["test", "dev", "staging", "qa", "sandbox", "demo"]
        (text_to_analyze arn tags) = false →
       matchesRow ["prod", "production", "live", "main"]
        (text_to_analyze arn tags) = false →
       matchesRow ["dev", "development", "feature", "branch"]
        (text_to_analyze arn tags) = true → detect_environment arn tags = "development")
    ∧ (matchesRow ["test", "dev", "staging", "qa", "sandbox", "demo"]
        (text_to_analyze arn tags) = false →
       matchesRow ["prod", "production", "live", "main"]
        (text_to_analyze arn tags) = false →
       matchesRow ["dev", "development", "feature", "branch"]
        (text_to_analyze arn tags) = false → detect_environment arn tags = "unknown")
    ∧ (f.resources = [] → analyze_environment_context f = unknownCtx)
    ∧ (∀ r rest, f.resources = r :: rest →
        (analyze_environment_context f).environment = detect_environment r.id r.tags ∧
        (analyze_environment_context f).risk_level =
          assess_environment_risk ((analyze_environment_context f).environment))
    ∧ assess_environment_risk "production" = "HIGH"
    ∧ assess_environment_risk "staging" = "MEDIUM"
    ∧ assess_environment_risk "test" = "LOW"
    ∧ assess_environment_risk "development" = "LOW"
    ∧ assess_environment_risk "unknown" = "MEDIUM" := by
  refine ⟨rfl, ?_, ?_, ?_, ?_, ?_, ?_, rfl, rfl, rfl, rfl, rfl⟩
  · intro h1
    simp [detect_environment, environment_patterns, detectFrom, h1]
  · intro h1 h2
    simp [detect_environment, environment_patterns, detectFrom, h1, h2]
  · intro h1 h2 h3
    simp [detect_environment, environment_patterns, detectFrom, h1, h2, h3]
  · intro h1 h2 h3
    simp [detect_environment, environment_patterns, detectFrom, h1, h2, h3]
  · intro h
    simp [analyze_environment_context, h, unknownCtx]
  · intro r rest h
    constructor <;> simp [analyze_environment_context, h, detect_environment]

/-- Witness for C8 at concrete inputs: one input per keyword-set branch,
and the empty-resources branch at the empty finding. -/
theorem c8_witness :
    detect_environment "arn:aws:s3:::my-test-bucket" [] = "test"
    ∧ detect_environment "arn:aws:s3:::prod-assets" [] = "production"
    ∧ detect_environment "arn:aws:ec2:feature" [] = "development"
    ∧ detect_environment "arn:aws:s3:::assorted" [] = "unknown"
    ∧ analyze_environment_context emptyFinding = unknownCtx
    ∧ (analyze_environment_context devFinding8).environment =
        detect_environment "arn:aws:iam::123456789012:root"
          [("Environment", "development")] := by
  refine ⟨?_, ?_, ?_, ?_, ?_, ?_⟩
  · exact (c8_environment_analyzer_algorithm emptyFinding _ _).2.1 (by decide)
  · exact (c8_environment_analyzer_algorithm emptyFinding _ _).2.2.1 (by decide) (by decide)
  · exact (c8_environment_analyzer_algorithm emptyFinding _ _).2.2.2.1
      (by decide) (by decide) (by decide)
  · exact (c8_environment_analyzer_algorithm emptyFinding _ _).2.2.2.2.1
      (by decide) (by decide) (by decide)
  · exact (c8_environment_analyzer_algorithm emptyFinding "" []).2.2.2.2.2.1 rfl
  · exact ((c8_environment_analyzer_algorithm devFinding8 "" []).2.2.2.2.2.2.1
      { id := "arn:aws:iam::123456789012:root", tags := [("Environment", "development")] }
      [] rfl).1

/-! ## Claim C9 -/

/-- C9: for every request, whatever the four analysis options, the
environment analyzer runs: the response always carries its context, the
models_used list always contains environment_analyzer, the environment
score is always among the averaged scores, and the confidence is the mean
of that list (which is therefore never empty). -/
theorem c9_environment_always_invoked (f : Finding) (opts : AnalysisOptions) :
    (analyze_finding f opts).environment_analysis = analyze_environment_context f
    ∧ "environment_analyzer" ∈ (analyze_finding f opts).models_used
    ∧ calculate_environment_score (analyze_environment_context f) ∈ analysisScores f opts
    ∧ analysisScores f opts ≠ []
    ∧ (analyze_finding f opts).classification.confidence =
        (analysisScores f opts).sum / ((analysisScores f opts).length : ℚ) := by
  refine ⟨rfl, ?_, ?_, analysisScores_ne_nil f opts, ?_⟩
  · simp [analyze_finding, get_models_used]
  · unfold analysisScores confidenceScores optScore
    simp
  · rw [analyze_finding_classification]
    exact combine_confidence_eq _ _ _ _ _ (analysisScores_ne_nil f opts)

/-! ## Claim C10 -/

/-- C10: the environment detector can never report staging, because the
staging keyword sits in the test-like set that is checked first; any
analyzed text containing staging (or dev) is classified test, and the
MEDIUM risk outcome is reachable only through the unknown tier, making the
staging row of the risk table dead. -/
theorem c10_staging_row_unreachable (arn : String) (tags : List (String × String)) :
    detect_environment arn tags ≠ "staging"
    ∧ (strContainsSub (text_to_analyze arn tags) "staging" = true →
        detect_environment arn tags = "test")
    ∧ (strContainsSub (text_to_analyze arn tags) "dev" = true →
        detect_environment arn tags = "test")
    ∧ (assess_environment_risk (detect_environment arn tags) = "MEDIUM" →
        detect_environment arn tags = "unknown") := by
  refine ⟨?_, ?_, ?_, ?_⟩
  · rcases detect_environment_cases arn tags with h | h | h | h <;> simp [h]
  · intro h
    simp [detect_environment, environment_patterns, detectFrom, matchesRow, h]
  · intro h
    simp [detect_environment, environment_patterns, detectFrom, matchesRow, h]
  · intro h
    rcases detect_environment_cases arn tags with h4 | h4 | h4 | h4 <;>
      rw [h4] at h ⊢ <;> first | rfl | simp [assess_environment_risk] at h

/-- Witness for C10 at concrete inputs: a staging bucket and a dev bucket
are classified test, and a keyword-free identifier lands on MEDIUM risk
through the unknown tier only. -/
theorem c10_witness :
    detect_environment "arn:aws:s3:::staging-assets" [] = "test"
    ∧ detect_environment "arn:aws:s3:::dev-assets" [] = "test"
    ∧ detect_environment "arn:aws:s3:::assorted" [] = "unknown" := by
  refine ⟨?_, ?_, ?_⟩
  · exact (c10_staging_row_unreachable "arn:aws:s3:::staging-assets" []).2.1 (by decide)
  · exact (c10_staging_row_unreachable "arn:aws:s3:::dev-assets" []).2.2.1 (by decide)
  · exact (c10_staging_row_unreachable "arn:aws:s3:::assorted" []).2.2.2 (by decide)

/-! ## Evaluation lemmas shared by the concrete-input theorems -/

/-- The confidence of every response is the mean of the fed score list. -/
lemma confidence_from_scores (f : Finding) (opts : AnalysisOptions) :
    (analyze_finding f opts).classification.confidence =
      (analysisScores f opts).sum / ((analysisScores f opts).length : ℚ) := by
  rw [analyze_finding_classification]
  exact combine_confidence_eq _ _ _ _ _ (analysisScores_ne_nil f opts)

/-- Under the default options the combiner sees the environment score, the
classifier confidence, the neutral pattern confidence, the business score
and the neutral temporal score, in that order. -/
lemma analysisScores_default (f : Finding) :
    analysisScores f defaultOptions =
      [calculate_environment_score (analyze_environment_context f),
       simple_classification (extract_features f),
       1/2,
       calculate_business_score (analyze_business_context f),
       1/2] := by
  unfold analysisScores confidenceScores optScore selected_ml selected_pattern
    selected_business selected_temporal classify_finding
  simp [getOpt, defaultOptions, pattern_confidence_eq_half, temporal_score_eq_half]

/-- Closed form of the default-options confidence. -/
lemma default_confidence_formula (f : Finding) :
    (analyze_finding f defaultOptions).classification.confidence =
      (calculate_environment_score (analyze_environment_context f) +
       simple_classification (extract_features f) +
       calculate_business_score (analyze_business_context f) + 1) / 5 := by
  rw [confidence_from_scores, analysisScores_default]
  simp [List.sum_cons, List.sum_nil]
  ring_nf

/-- The false-positive flag of every response is the 0.7 threshold test on
its own confidence. -/
lemma is_fp_from_confidence (f : Finding) (opts : AnalysisOptions) :
    (analyze_finding f opts).classification.is_false_positive =
      decide ((analyze_finding f opts).classification.confidence > 7/10) := rfl

/-- The recommended action of every response is the threshold policy
applied to its own confidence. -/
lemma action_from_confidence (f : Finding) (opts : AnalysisOptions) :
    (analyze_finding f opts).classification.recommended_action =
      recommendedActionOf ((analyze_finding f opts).classification.confidence) := rfl

/-- The reasoning of every response is the semicolon join of the collected
reasoning parts, or the fixed fallback text when none fired. -/
lemma reasoning_from_parts (f : Finding) (opts : AnalysisOptions) :
    (analyze_finding f opts).classification.reasoning =
      (if reasoningParts (some (analyze_environment_context f)) (selected_ml f opts)
          (selected_pattern f opts) (selected_business f opts) (selected_temporal f opts) = []
       then "No specific indicators"
       else String.intercalate "; " (reasoningParts (some (analyze_environment_context f))
          (selected_ml f opts) (selected_pattern f opts) (selected_business f opts)
          (selected_temporal f opts))) := rfl

/-- Default-options confidence of any finding whose detected environment
is test while the business analyzer reports neither an exception nor a
critical resource and the severity-mismatch feature is neutral: the five
averaged scores are 0.9, 0.62, 0.5, 0.5, 0.5, so the confidence is 0.604. -/
lemma confidence_at_test_env (f : Finding)
    (henv : (analyze_environment_context f).environment = "test")
    (hbe : (analyze_business_context f).has_business_exception = false)
    (hcr : (analyze_business_context f).is_critical_resource = false)
    (hsev : extract_severity_mismatch_score f = 1/2) :
    (analyze_finding f defaultOptions).classification.confidence = 151/250 := by
  have h1 : extract_environment_score f = 9/10 := by
    simp [extract_environment_score, henv]
  have h3 : extract_business_exception_score f = 1/2 := by
    simp [extract_business_exception_score, hbe, hcr]
  have hfeat : extract_features f = [9/10, 1/2, 1/2, 1/2, 1/2] := by
    simp [extract_features, h1, h3, hsev, extract_historical_pattern_score,
      extract_temporal_pattern_score]
  have hprob : simple_classification (extract_features f) = 31/50 := by
    rw [hfeat]
    simp only [simple_classification, classifier_weights, List.zip, List.zipWith,
      List.map, List.sum_cons, List.sum_nil]
    norm_num
  have henvscore : calculate_environment_score (analyze_environment_context f) = 9/10 := by
    simp [calculate_environment_score, henv]
  have hbusscore : calculate_business_score (analyze_business_context f) = 1/2 := by
    simp [calculate_business_score, hbe, hcr]
  rw [default_confidence_formula, henvscore, hprob, hbusscore]
  norm_num

/-- With all four options disabled the combiner sees only the environment
score. -/
lemma allOff_scores (f : Finding) (opts : AnalysisOptions)
    (h1 : getOpt opts.include_ml_classification = false)
    (h2 : getOpt opts.include_pattern_analysis = false)
    (h3 : getOpt opts.include_business_context = false)
    (h4 : getOpt opts.include_temporal_analysis = false) :
    analysisScores f opts = [calculate_environment_score (analyze_environment_context f)] := by
  unfold analysisScores confidenceScores optScore selected_ml selected_pattern
    selected_business selected_temporal
  simp [h1, h2, h3, h4]

/-! ## Claim C3 -/

/-- Counterexample for C3: on a test-bucket finding with all four options
explicitly disabled the request succeeds, but the classification is not
the claimed fallback: the always-run environment analyzer alone sets
confidence 0.9 and action DOWNGRADE instead of 0.5 and REVIEW. -/
theorem c3_counterexample :
    getOpt allOptionsOff.include_ml_classification = false
    ∧ getOpt allOptionsOff.include_pattern_analysis = false
    ∧ getOpt allOptionsOff.include_business_context = false
    ∧ getOpt allOptionsOff.include_temporal_analysis = false
    ∧ (analyze_finding testBucketFinding allOptionsOff).classification.confidence = 9/10
    ∧ (analyze_finding testBucketFinding allOptionsOff).classification.recommended_action = "DOWNGRADE"
    ∧ ¬ ((analyze_finding testBucketFinding allOptionsOff).classification.confidence = 1/2
        ∧ (analyze_finding testBucketFinding allOptionsOff).classification.recommended_action = "REVIEW") := by
  have henv : (analyze_environment_context testBucketFinding).environment = "test" := by decide
  have hc : (analyze_finding testBucketFinding allOptionsOff).classification.confidence = 9/10 := by
    rw [confidence_from_scores, allOff_scores testBucketFinding allOptionsOff rfl rfl rfl rfl]
    simp [calculate_environment_score, henv]
  refine ⟨rfl, rfl, rfl, rfl, hc, ?_, ?_⟩
  · rw [action_from_confidence, hc]
    norm_num [recommendedActionOf]
  · rintro ⟨hh, -⟩
    rw [hc] at hh
    norm_num at hh

/-- C3 amended: with all four analysis options false the request still
succeeds deterministically, but the environment analyzer still runs, so
the confidence equals the environment score and the action follows the
standard thresholds; the claimed 0.5 and REVIEW fallback is what happens
exactly when the detected environment tier is unknown. -/
theorem c3_amended_env_only_disposition (f : Finding) (opts : AnalysisOptions)
    (h1 : getOpt opts.include_ml_classification = false)
    (h2 : getOpt opts.include_pattern_analysis = false)
    (h3 : getOpt opts.include_business_context = false)
    (h4 : getOpt opts.include_temporal_analysis = false) :
    (analyze_finding f opts).classification.confidence =
      calculate_environment_score (analyze_environment_context f)
    ∧ (analyze_finding f opts).classification.recommended_action =
        recommendedActionOf (calculate_environment_score (analyze_environment_context f))
    ∧ ((analyze_environment_context f).environment = "unknown" →
        (analyze_finding f opts).classification.confidence = 1/2 ∧
        (analyze_finding f opts).classification.recommended_action = "REVIEW") := by
  have hc : (analyze_finding f opts).classification.confidence =
      calculate_environment_score (analyze_environment_context f) := by
    rw [confidence_from_scores, allOff_scores f opts h1 h2 h3 h4]
    simp
  refine ⟨hc, by rw [action_from_confidence, hc], ?_⟩
  intro henv
  have hval : calculate_environment_score (analyze_environment_context f) = 1/2 := by
    simp [calculate_environment_score, henv]
  exact ⟨by rw [hc, hval], by rw [action_from_confidence, hc, hval]; norm_num [recommendedActionOf]⟩

/-- Witness for C3 amended at a concrete input: the empty finding has an
unknown environment, so with everything disabled it gets confidence 0.5
and action REVIEW. -/
theorem c3_witness :
    (analyze_finding emptyFinding allOptionsOff).classification.confidence = 1/2
    ∧ (analyze_finding emptyFinding allOptionsOff).classification.recommended_action = "REVIEW" := by
  exact (c3_amended_env_only_disposition emptyFinding allOptionsOff rfl rfl rfl rfl).2.2 (by decide)

/-! ## Claim C4 -/

/-- C4 evaluation at the failing input: the development-tagged finding of
the repository test suite is detected as non-production (its analyzed text
contains the dev keyword) and its reasoning names the non-production
environment, but under the default options the returned confidence is
0.604, which is not above 0.7, so is_false_positive is false — against
both the claim and the assertions of test_development_environment_false_positive. -/
theorem c4_code_eval_at_failing_input :
    strContainsSub
      (text_to_analyze "arn:aws:iam::123456789012:root" [("Environment", "development")])
      "dev" = true
    ∧ (analyze_finding devFinding8 defaultOptions).classification.confidence = 151/250
    ∧ ¬ ((analyze_finding devFinding8 defaultOptions).classification.confidence > 7/10)
    ∧ (analyze_finding devFinding8 defaultOptions).classification.is_false_positive = false
    ∧ (analyze_finding devFinding8 defaultOptions).classification.reasoning =
        "Finding is in non-production environment" := by
  have hconf := confidence_at_test_env devFinding8 (by decide) (by decide) (by decide) rfl
  have hfeat : extract_features devFinding8 = [9/10, 1/2, 1/2, 1/2, 1/2] := by
    have henv : (analyze_environment_context devFinding8).environment = "test" := by decide
    have h1 : extract_environment_score devFinding8 = 9/10 := by
      simp [extract_environment_score, henv]
    have h3 : extract_business_exception_score devFinding8 = 1/2 := by
      simp [extract_business_exception_score,
        show (analyze_business_context devFinding8).has_business_exception = false from by decide,
        show (analyze_business_context devFinding8).is_critical_resource = false from by decide]
    simp [extract_features, h1, h3, extract_historical_pattern_score,
      extract_temporal_pattern_score, show extract_severity_mismatch_score devFinding8 = 1/2 from rfl]
  have hprob : simple_classification (extract_features devFinding8) = 31/50 := by
    rw [hfeat]
    simp only [simple_classification, classifier_weights, List.zip, List.zipWith,
      List.map, List.sum_cons, List.sum_nil]
    norm_num
  have hml : selected_ml devFinding8 defaultOptions = some
      { is_false_positive := false, confidence := 31/50,
        reasoning := generate_reasoning devFinding8 (extract_features devFinding8)
          (simple_classification (extract_features devFinding8)) } := by
    show some _ = _
    rw [show (some
      { is_false_positive := decide (simple_classification (extract_features devFinding8) > 7/10),
        confidence := simple_classification (extract_features devFinding8),
        reasoning := generate_reasoning devFinding8 (extract_features devFinding8)
          (simple_classification (extract_features devFinding8)) } :
      Option FalsePositiveClassification) = classify_finding devFinding8 from rfl]
    rw [classify_finding, hprob]
    norm_num
  have hparts : reasoningParts (some (analyze_environment_context devFinding8))
      (selected_ml devFinding8 defaultOptions) (selected_pattern devFinding8 defaultOptions)
      (selected_business devFinding8 defaultOptions) (selected_temporal devFinding8 defaultOptions)
      = ["Finding is in non-production environment"] := by
    rw [hml]
    simp [reasoningParts,
      show (analyze_environment_context devFinding8).environment = "test" from by decide,
      show (analyze_business_context devFinding8).has_business_exception = false from by decide,
      calculate_environment_score, selected_pattern, selected_business, selected_temporal,
      getOpt, defaultOptions, pattern_confidence_eq_half, analyze_temporal_context,
      is_temporary_finding, analyze_recurrence_pattern, is_in_maintenance_window]
    norm_num
  refine ⟨by decide, hconf, ?_, ?_, ?_⟩
  · rw [hconf]
    norm_num
  · rw [is_fp_from_confidence, hconf]
    simp only [decide_eq_false_iff_not]
    norm_num
  · rw [reasoning_from_parts, hparts]
    decide

/-! ## Claim C5 -/

/-- C5 evaluation at the failing input: the production-tagged HIGH-severity
finding used by the repository test test_production_environment_true_positive
carries tag Environment production and severity HIGH, yet the returned
confidence under default options is 0.604, not below 0.5: the test-project
tag value makes the environment detector report test, overriding the
production tag. -/
theorem c5_code_eval_at_failing_input :
    prodFinding5.severity_label = "HIGH"
    ∧ prodFinding5.resources.map (fun r => dictGet r.tags "Environment" "unknown")
        = ["production"]
    ∧ (analyze_environment_context prodFinding5).environment = "test"
    ∧ (analyze_finding prodFinding5 defaultOptions).classification.confidence = 151/250
    ∧ ¬ ((analyze_finding prodFinding5 defaultOptions).classification.confidence < 1/2) := by
  have hconf := confidence_at_test_env prodFinding5 (by decide) (by decide) (by decide) rfl
  refine ⟨rfl, by decide, by decide, hconf, ?_⟩
  rw [hconf]
  norm_num
